import Mathlib

/-!
Verification of the solar-time calculator of the day-night-cycle repository
(file internal/solar.go) against its natural-language specification.

The Go code is shallowly embedded: machine integers become ℤ, float64
arithmetic becomes exact real arithmetic over ℝ, and Go's time.Time (a count
of seconds together with a fixed-offset location) becomes the structure
GoTime below.  Each definition keeps the name and the structure of the Go
function it translates.
-/

open Real

/-- Truncation of a real number toward zero, modelling Go's conversion from
float64 to int (the fractional part is discarded). -/
noncomputable def truncR (x : ℝ) : ℤ := if 0 ≤ x then ⌊x⌋ else -⌊-x⌋

/-- Go's math.Mod: remainder with the sign of the dividend,
x - y * trunc (x / y). -/
noncomputable def goMod (x y : ℝ) : ℝ := x - y * (truncR (x / y) : ℝ)

/-- Proleptic-Gregorian civil date (year, month, day) of a count of days
since 1970-01-01, the calendar algorithm used by Go's time package. -/
def civilFromDays (z : ℤ) : ℤ × ℤ × ℤ :=
  let z' := z + 719468
  let era := z' / 146097
  let doe := z' % 146097
  let yoe := (doe - doe / 1460 + doe / 36524 - doe / 146096) / 365
  let y := yoe + era * 400
  let doy := doe - (365 * yoe + yoe / 4 - yoe / 100)
  let mp := (5 * doy + 2) / 153
  let d := doy - (153 * mp + 2) / 5 + 1
  let m := mp + if mp < 10 then 3 else -9
  ((y + if m ≤ 2 then 1 else 0), m, d)

/-- Days since 1970-01-01 of a proleptic-Gregorian civil date.  Out-of-range
months and days are normalized arithmetically, as Go's time.Date does. -/
def daysFromCivil (y m d : ℤ) : ℤ :=
  let y' := y + (m - 3) / 12
  let mp := (m - 3) % 12
  let era := y' / 400
  let yoe := y' % 400
  let doy := (153 * mp + 2) / 5 + d - 1
  let doe := yoe * 365 + yoe / 4 - yoe / 100 + doy
  era * 146097 + doe - 719468

/-- Model of Go's time.Time: an absolute count of seconds since the Unix
epoch together with the fixed UTC offset (in seconds) of its location. -/
structure GoTime where
  sec : ℤ
  off : ℤ
  deriving DecidableEq, Repr

/-- Seconds since the epoch of the local (zone-shifted) reading of t. -/
def GoTime.localAbs (t : GoTime) : ℤ := t.sec + t.off

/-- Local calendar day count (days since 1970-01-01) of t. -/
def GoTime.localDays (t : GoTime) : ℤ := t.localAbs / 86400

/-- Local (year, month, day) of t, as Go's Year/Month/Day accessors. -/
def GoTime.ymd (t : GoTime) : ℤ × ℤ × ℤ := civilFromDays t.localDays

/-- Local calendar year of t. -/
def GoTime.year (t : GoTime) : ℤ := t.ymd.1

/-- Local calendar month of t (1 to 12). -/
def GoTime.month (t : GoTime) : ℤ := t.ymd.2.1

/-- Local day of the month of t. -/
def GoTime.day (t : GoTime) : ℤ := t.ymd.2.2

/-- Local second of the day of t (0 to 86399). -/
def GoTime.sod (t : GoTime) : ℤ := t.localAbs % 86400

/-- Local hour of t. -/
def GoTime.hour (t : GoTime) : ℤ := t.sod / 3600

/-- Local minute of t. -/
def GoTime.minute (t : GoTime) : ℤ := (t.sod % 3600) / 60

/-- Local second of t. -/
def GoTime.second (t : GoTime) : ℤ := t.sod % 60

/-- Go's t.UTC(): the same instant read in the UTC location. -/
def GoTime.utc (t : GoTime) : GoTime := ⟨t.sec, 0⟩

/-- Go's t.In(loc): the same instant read in a fixed-offset location. -/
def GoTime.inZone (t : GoTime) (off : ℤ) : GoTime := ⟨t.sec, off⟩

/-- Go's time.Date: builds the instant with the given calendar fields read
in the location of offset off (out-of-range fields are normalized). -/
def goDate (y m d hh mm ss off : ℤ) : GoTime :=
  ⟨daysFromCivil y m d * 86400 + hh * 3600 + mm * 60 + ss - off, off⟩

/-- Standard zenith angle for sunrise/sunset: 90 degrees plus 50 arc
minutes, accounting for atmospheric refraction and the sun's radius
(constant sunriseZenith of solar.go). -/
noncomputable def sunriseZenith : ℝ := 90.8333

/-- Translation of julianDay of solar.go: converts a date to a Julian Day
number.  Go's integer conversions int(...) truncate toward zero and Go's
integer division year/100 truncates toward zero; both are modelled exactly. -/
noncomputable def julianDay (t : GoTime) : ℝ :=
  let u := t.utc
  let dayFraction : ℝ :=
    (u.hour : ℝ) / 24 + (u.minute : ℝ) / (24 * 60) + (u.second : ℝ) / (24 * 60 * 60)
  let year := if u.month ≤ 2 then u.year - 1 else u.year
  let month := if u.month ≤ 2 then u.month + 12 else u.month
  let a := Int.tdiv year 100
  let b := 2 - a + Int.tdiv a 4
  ((truncR (365.25 * ((year : ℝ) + 4716)) : ℤ) : ℝ) +
    ((truncR (30.6001 * ((month : ℝ) + 1)) : ℤ) : ℝ) +
    (u.day : ℝ) + dayFraction + (b : ℝ) - 1524.5

/-- Translation of julianDayToJulianCentury of solar.go. -/
noncomputable def julianDayToJulianCentury (jd : ℝ) : ℝ := (jd - 2451545.0) / 36525.0

/-- Translation of geomMeanLongSun of solar.go. -/
noncomputable def geomMeanLongSun (jc : ℝ) : ℝ :=
  goMod (280.46646 + jc * (36000.76983 + 0.0003032 * jc)) 360

/-- Translation of geomMeanAnomalySun of solar.go. -/
noncomputable def geomMeanAnomalySun (jc : ℝ) : ℝ :=
  357.52911 + jc * (35999.05029 - 0.0001537 * jc)

/-- Translation of eccentricEarthOrbit of solar.go. -/
noncomputable def eccentricEarthOrbit (jc : ℝ) : ℝ :=
  0.016708634 - jc * (0.000042037 + 0.0000001267 * jc)

/-- Translation of sunEqOfCenter of solar.go. -/
noncomputable def sunEqOfCenter (jc : ℝ) : ℝ :=
  let m := geomMeanAnomalySun jc
  let mrad := π * m / 180
  let sinm := sin mrad
  let sin2m := sin (2 * mrad)
  let sin3m := sin (3 * mrad)
  sinm * (1.914602 - jc * (0.004817 + 0.000014 * jc)) +
    sin2m * (0.019993 - 0.000101 * jc) + sin3m * 0.000289

/-- Translation of sunTrueLong of solar.go. -/
noncomputable def sunTrueLong (jc : ℝ) : ℝ := geomMeanLongSun jc + sunEqOfCenter jc

/-- Translation of sunApparentLong of solar.go. -/
noncomputable def sunApparentLong (jc : ℝ) : ℝ :=
  let trueLong := sunTrueLong jc
  let omega := 125.04 - 1934.136 * jc
  trueLong - 0.00569 - 0.00478 * sin (π * omega / 180)

/-- Translation of meanObliquityOfEcliptic of solar.go. -/
noncomputable def meanObliquityOfEcliptic (jc : ℝ) : ℝ :=
  let seconds := 21.448 - jc * (46.815 + jc * (0.00059 - jc * 0.001813))
  23 + (26 + seconds / 60) / 60

/-- Translation of obliquityCorrection of solar.go. -/
noncomputable def obliquityCorrection (jc : ℝ) : ℝ :=
  let e0 := meanObliquityOfEcliptic jc
  let omega := 125.04 - 1934.136 * jc
  e0 + 0.00256 * cos (π * omega / 180)

/-- Translation of sunDeclination of solar.go. -/
noncomputable def sunDeclination (jc : ℝ) : ℝ :=
  let oc := obliquityCorrection jc
  let al := sunApparentLong jc
  let sint := sin (π * oc / 180) * sin (π * al / 180)
  180 * arcsin sint / π

/-- Translation of equationOfTime of solar.go (result in minutes). -/
noncomputable def equationOfTime (jc : ℝ) : ℝ :=
  let epsilon := obliquityCorrection jc
  let l0 := geomMeanLongSun jc
  let e := eccentricEarthOrbit jc
  let m := geomMeanAnomalySun jc
  let y := tan (π * epsilon / 360) * tan (π * epsilon / 360)
  let sin2l0 := sin (2 * π * l0 / 180)
  let sinm := sin (π * m / 180)
  let cos2l0 := cos (2 * π * l0 / 180)
  let sin4l0 := sin (4 * π * l0 / 180)
  let sin2m := sin (2 * π * m / 180)
  let etime := y * sin2l0 - 2 * e * sinm + 4 * e * y * sinm * cos2l0 -
    0.5 * y * y * sin4l0 - 1.25 * e * e * sin2m
  4 * 180 * etime / π

/-- Translation of hourAngleFromZenith of solar.go: hour angle for a given
zenith, with the polar day/night clamps. -/
noncomputable def hourAngleFromZenith (lat declination zenith : ℝ) : ℝ :=
  let latRad := π * lat / 180
  let decRad := π * declination / 180
  let zenithRad := π * zenith / 180
  let h := (cos zenithRad - sin latRad * sin decRad) / (cos latRad * cos decRad)
  if h > 1 then 0
  else if h < -1 then 180
  else 180 * arccos h / π

/-- Translation of timeOfTransit of solar.go: minutes since midnight UTC of
the sun's crossing of the given zenith. -/
noncomputable def timeOfTransit (jd lat lon zenith : ℝ) (rising : Bool) : ℝ :=
  let jc := julianDayToJulianCentury jd
  let declination := sunDeclination jc
  let hourAngle0 := hourAngleFromZenith lat declination zenith
  let hourAngle := if rising then hourAngle0 else -hourAngle0
  let delta := -lon - hourAngle
  let eqTime := equationOfTime jc
  let offset0 := delta * 4 - eqTime
  let offset := if offset0 < -720 then offset0 + 1440 else offset0
  720 + offset

/-- Translation of minutesToTime of solar.go: converts minutes since
midnight UTC (on the calendar day of date) to the location of date. -/
noncomputable def minutesToTime (date : GoTime) (minutes : ℝ) : GoTime :=
  let hours := truncR (minutes / 60)
  let mins := Int.tmod (truncR minutes) 60
  let secs := truncR ((minutes - (truncR minutes : ℝ)) * 60)
  (goDate date.year date.month date.day hours mins secs 0).inZone date.off

/-- Translation of CalculateTimes of solar.go: sunrise and sunset for a
location and date, computed in two refinement passes. -/
noncomputable def CalculateTimes (lat lon : ℝ) (t : GoTime) : GoTime × GoTime :=
  let jd := julianDay t
  let sunriseMinutes1 := timeOfTransit jd lat lon sunriseZenith true
  let sunsetMinutes1 := timeOfTransit jd lat lon sunriseZenith false
  let sunriseJD := jd + sunriseMinutes1 / 1440
  let sunsetJD := jd + sunsetMinutes1 / 1440
  let sunriseMinutes := timeOfTransit sunriseJD lat lon sunriseZenith true
  let sunsetMinutes := timeOfTransit sunsetJD lat lon sunriseZenith false
  (minutesToTime t sunriseMinutes, minutesToTime t sunsetMinutes)

/-! ### Basic facts about the Go primitives -/

theorem truncR_of_nonneg {x : ℝ} (h : 0 ≤ x) : truncR x = ⌊x⌋ := if_pos h

theorem truncR_of_neg {x : ℝ} (h : x < 0) : truncR x = -⌊-x⌋ := if_neg (not_le.mpr h)

theorem floor_intCast_div_hundred (a : ℤ) : ⌊(a : ℝ) / 100⌋ = a / 100 := by
  have hq : ∀ q : ℚ, ((q : ℝ) = (a : ℝ) / 100) → ⌊(a : ℝ) / 100⌋ = ⌊q⌋ := by
    intro q h
    rw [← h, Rat.floor_cast]
  rw [hq ((a : ℚ) / ((100 : ℕ) : ℚ)) (by push_cast; ring), Rat.floor_intCast_div_natCast]
  norm_num

theorem floor_intCast_div_four (a : ℤ) : ⌊(a : ℝ) / 4⌋ = a / 4 := by
  have hq : ∀ q : ℚ, ((q : ℝ) = (a : ℝ) / 4) → ⌊(a : ℝ) / 4⌋ = ⌊q⌋ := by
    intro q h
    rw [← h, Rat.floor_cast]
  rw [hq ((a : ℚ) / ((4 : ℕ) : ℚ)) (by push_cast; ring), Rat.floor_intCast_div_natCast]
  norm_num

theorem tdiv_eq_cases (a b : ℤ) (hb : 0 ≤ b) :
    a.tdiv b = if 0 ≤ a then a / b else -(-a / b) := by
  split
  · exact Int.tdiv_eq_ediv (by assumption) hb
  · rw [show a = -(-a) from (neg_neg a).symm, Int.neg_tdiv,
      Int.tdiv_eq_ediv (by omega) hb, neg_neg]

/-- Go's truncating b-term of the Julian Day algorithm agrees with the
flooring b-term of the textbook algorithm for every nonnegative year.  (For
negative century years such as -100 the two genuinely differ: Go computes
tdiv (-1) 4 = 0 where the textbook floor gives -1.) -/
theorem go_b_eq_floor_b (y : ℤ) (hy : 0 ≤ y) :
    2 - Int.tdiv y 100 + Int.tdiv (Int.tdiv y 100) 4 =
      2 - Int.fdiv y 100 + Int.fdiv (Int.fdiv y 100) 4 := by
  rw [tdiv_eq_cases y 100 (by norm_num), if_pos hy,
    Int.fdiv_eq_ediv _ (by norm_num : (0:ℤ) ≤ 100),
    tdiv_eq_cases _ 4 (by norm_num), if_pos (Int.ediv_nonneg hy (by norm_num)),
    Int.fdiv_eq_ediv _ (by norm_num : (0:ℤ) ≤ 4)]

/-! ### The spec-side definitions used by the refinement claims -/

/-- Step 4 of the spec's Transit Time Refiner, written from the spec's
words: given the signed hour angle and the Julian Day of the event, compute
offset = (-longitude - hourAngle) * 4 - equationOfTime, add 1440 when
offset < -720, and return 720 + offset. -/
noncomputable def transitWithSignedAngle (jd lon hourAngle : ℝ) : ℝ :=
  let jc := julianDayToJulianCentury jd
  let eqTime := equationOfTime jc
  let offset0 := (-lon - hourAngle) * 4 - eqTime
  let offset := if offset0 < -720 then offset0 + 1440 else offset0
  720 + offset

/-- One refinement pass of the spec's Transit Time Refiner: re-anchor the
transit formula at jd + m / 1440 where m is the previous estimate. -/
noncomputable def refinePass (jd lat lon : ℝ) (rising : Bool) (m : ℝ) : ℝ :=
  timeOfTransit (jd + m / 1440) lat lon sunriseZenith rising

/-! ### Structural claims -/

/-- C2: for each event, given the signed hour angle and the equation of time
at the event's Julian Century, the orchestrator computes
offset = (-longitude - hourAngle) * 4 - equationOfTime, adds 1440 to offset
when offset < -720, and returns 720 + offset, for every latitude, longitude
and Julian Day. -/
theorem C2_offset_formula (jd lat lon : ℝ) (rising : Bool) :
    timeOfTransit jd lat lon sunriseZenith rising =
      transitWithSignedAngle jd lon
        ((if rising then 1 else -1) *
          hourAngleFromZenith lat (sunDeclination (julianDayToJulianCentury jd))
            sunriseZenith) := by
  cases rising <;>
    simp [timeOfTransit, transitWithSignedAngle, neg_one_mul, one_mul]

/-- C3: the hour-angle solver computes
cosH = (cos zenith - sin lat * sin dec) / (cos lat * cos dec), returns 0
when cosH > 1 (polar night), 180 when cosH < -1 (polar day), and
arccos cosH in degrees otherwise, and the returned value always lies in
[0, 180] with no error signalled. -/
theorem C3_hourAngle_formula_and_range (lat dec zenith : ℝ) :
    hourAngleFromZenith lat dec zenith =
      (if (cos (π * zenith / 180) - sin (π * lat / 180) * sin (π * dec / 180)) /
          (cos (π * lat / 180) * cos (π * dec / 180)) > 1 then 0
        else if (cos (π * zenith / 180) - sin (π * lat / 180) * sin (π * dec / 180)) /
          (cos (π * lat / 180) * cos (π * dec / 180)) < -1 then 180
        else 180 * arccos ((cos (π * zenith / 180) - sin (π * lat / 180) * sin (π * dec / 180)) /
          (cos (π * lat / 180) * cos (π * dec / 180))) / π) ∧
    0 ≤ hourAngleFromZenith lat dec zenith ∧ hourAngleFromZenith lat dec zenith ≤ 180 := by
  have hrange : ∀ h : ℝ,
      0 ≤ (if h > 1 then (0:ℝ) else if h < -1 then 180 else 180 * arccos h / π) ∧
      (if h > 1 then (0:ℝ) else if h < -1 then 180 else 180 * arccos h / π) ≤ 180 := by
    intro h
    split_ifs
    · norm_num
    · norm_num
    · constructor
      · have h1 := arccos_nonneg h
        positivity
      · have h1 := arccos_le_pi h
        rw [div_le_iff₀ pi_pos]
        nlinarith [pi_pos]
  refine ⟨rfl, ?_, ?_⟩ <;>
    simp only [hourAngleFromZenith] <;>
    [exact (hrange _).1; exact (hrange _).2]

/-- C4: the orchestrator performs exactly two transit-formula passes per
event, the first anchored at the date's Julian Day and the second
re-anchored at JD + minutes / 1440 with the first pass's result, returning
the second pass's result with no further iteration. -/
theorem C4_two_passes (lat lon : ℝ) (t : GoTime) :
    CalculateTimes lat lon t =
      (minutesToTime t ((refinePass (julianDay t) lat lon true)^[2] 0),
        minutesToTime t ((refinePass (julianDay t) lat lon false)^[2] 0)) := by
  simp only [CalculateTimes, refinePass, Function.iterate_succ, Function.iterate_zero,
    Function.comp_apply, id_eq]
  norm_num

/-- C9: the orchestrator is deterministic; two runs on identical inputs
produce identical outputs (the embedding is a pure function, mirroring the
Go code, which reads no state besides its arguments). -/
theorem C9_deterministic (lat lon : ℝ) (t : GoTime) :
    CalculateTimes lat lon t = CalculateTimes lat lon t := rfl

/-- C10: the hour-angle solver is symmetric in latitude and declination. -/
theorem C10_hourAngle_symmetric (lat dec zenith : ℝ) :
    hourAngleFromZenith lat dec zenith = hourAngleFromZenith dec lat zenith := by
  have key : ∀ h1 h2 : ℝ, h1 = h2 →
      (if h1 > 1 then (0:ℝ) else if h1 < -1 then 180 else 180 * arccos h1 / π) =
      (if h2 > 1 then (0:ℝ) else if h2 < -1 then 180 else 180 * arccos h2 / π) := by
    intro h1 h2 e
    rw [e]
  simp only [hourAngleFromZenith]
  exact key _ _ (by ring)

/-! ### C5: the Julian Day conversion against the standard flooring algorithm -/

/-- Julian Day by the standard algorithm as worded in the specification:
shift January/February into the previous year with month + 12, set
b = 2 - floor(year/100) + floor(floor(year/100)/4), and add the fractional
day hour/24 + minute/1440 + second/86400 to
floor(365.25 * (year + 4716)) + floor(30.6001 * (month + 1)) + day + b - 1524.5. -/
noncomputable def julianDayFloorSpec (t : GoTime) : ℝ :=
  let u := t.utc
  let dayFraction : ℝ := (u.hour : ℝ) / 24 + (u.minute : ℝ) / 1440 + (u.second : ℝ) / 86400
  let year := if u.month ≤ 2 then u.year - 1 else u.year
  let month := if u.month ≤ 2 then u.month + 12 else u.month
  let a : ℤ := ⌊(year : ℝ) / 100⌋
  let b : ℤ := 2 - a + ⌊(a : ℝ) / 4⌋
  ((⌊(365.25 : ℝ) * ((year : ℝ) + 4716)⌋ : ℤ) : ℝ) +
    ((⌊(30.6001 : ℝ) * ((month : ℝ) + 1)⌋ : ℤ) : ℝ) +
    (u.day : ℝ) + dayFraction + (b : ℝ) - 1524.5

/-- C5, amended: for every valid UTC instant (month between 1 and 12) whose
month-adjusted year is nonnegative, julianDay agrees with the standard
flooring algorithm.  (For earlier years Go's truncation toward zero differs
from flooring, see the counterexample.) -/
theorem C5_julianDay_standard (t : GoTime)
    (hm1 : 1 ≤ t.utc.month) (hm2 : t.utc.month ≤ 12)
    (hy : 0 ≤ (if t.utc.month ≤ 2 then t.utc.year - 1 else t.utc.year)) :
    julianDay t = julianDayFloorSpec t := by
  have main : ∀ Y M : ℤ, 0 ≤ Y → 1 ≤ M →
      ((truncR (365.25 * ((Y : ℝ) + 4716)) : ℤ) : ℝ) +
        ((truncR (30.6001 * ((M : ℝ) + 1)) : ℤ) : ℝ) +
        (t.utc.day : ℝ) +
        ((t.utc.hour : ℝ) / 24 + (t.utc.minute : ℝ) / (24 * 60) +
          (t.utc.second : ℝ) / (24 * 60 * 60)) +
        ((2 - Int.tdiv Y 100 + Int.tdiv (Int.tdiv Y 100) 4 : ℤ) : ℝ) - 1524.5 =
      ((⌊(365.25 : ℝ) * ((Y : ℝ) + 4716)⌋ : ℤ) : ℝ) +
        ((⌊(30.6001 : ℝ) * ((M : ℝ) + 1)⌋ : ℤ) : ℝ) +
        (t.utc.day : ℝ) +
        ((t.utc.hour : ℝ) / 24 + (t.utc.minute : ℝ) / 1440 + (t.utc.second : ℝ) / 86400) +
        ((2 - ⌊((Y : ℤ) : ℝ) / 100⌋ + ⌊((⌊((Y : ℤ) : ℝ) / 100⌋ : ℤ) : ℝ) / 4⌋ : ℤ) : ℝ) -
        1524.5 := by
    intro Y M hY hM
    have hYR : (0 : ℝ) ≤ (Y : ℝ) := by exact_mod_cast hY
    have hMR : (1 : ℝ) ≤ (M : ℝ) := by exact_mod_cast hM
    rw [truncR_of_nonneg (by nlinarith), truncR_of_nonneg (by nlinarith),
      Int.tdiv_eq_ediv hY (show (0:ℤ) ≤ 100 by norm_num),
      Int.tdiv_eq_ediv (Int.ediv_nonneg hY (by norm_num)) (show (0:ℤ) ≤ 4 by norm_num),
      floor_intCast_div_hundred, floor_intCast_div_four]
    push_cast
    ring
  simp only [julianDay, julianDayFloorSpec]
  rcases le_or_lt t.utc.month 2 with hc | hc
  · rw [if_pos hc] at hy
    simp only [if_pos hc]
    exact main (t.utc.year - 1) (t.utc.month + 12) hy (by omega)
  · rw [if_neg (not_le.mpr hc)] at hy
    simp only [if_neg (not_le.mpr hc)]
    exact main t.utc.year t.utc.month hy hm1

/-- C5 witness: the amended theorem applies at 2000-01-01 00:00 UTC. -/
theorem C5_witness :
    (1 ≤ (GoTime.utc ⟨946684800, 0⟩).month ∧ (GoTime.utc ⟨946684800, 0⟩).month ≤ 12 ∧
      0 ≤ (if (GoTime.utc ⟨946684800, 0⟩).month ≤ 2 then (GoTime.utc ⟨946684800, 0⟩).year - 1
        else (GoTime.utc ⟨946684800, 0⟩).year)) ∧
    julianDay ⟨946684800, 0⟩ = julianDayFloorSpec ⟨946684800, 0⟩ :=
  ⟨⟨by decide, by decide, by decide⟩,
    C5_julianDay_standard ⟨946684800, 0⟩ (by decide) (by decide) (by decide)⟩

/-- C5 counterexample: at -5001-03-01 00:00 UTC (a valid proleptic-Gregorian
instant), julianDay computed with Go's truncation toward zero differs from
the standard flooring algorithm (-105457.5 against -105458.5). -/
theorem C5_counterexample :
    julianDay ⟨-219978374400, 0⟩ ≠ julianDayFloorSpec ⟨-219978374400, 0⟩ := by
  have hY : (⟨-219978374400, 0⟩ : GoTime).utc.year = -5001 := by decide
  have hM : (⟨-219978374400, 0⟩ : GoTime).utc.month = 3 := by decide
  have hD : (⟨-219978374400, 0⟩ : GoTime).utc.day = 1 := by decide
  have hh : (⟨-219978374400, 0⟩ : GoTime).utc.hour = 0 := by decide
  have hmin : (⟨-219978374400, 0⟩ : GoTime).utc.minute = 0 := by decide
  have hsec : (⟨-219978374400, 0⟩ : GoTime).utc.second = 0 := by decide
  have h1 : julianDay ⟨-219978374400, 0⟩ = -105457.5 := by
    simp only [julianDay, hY, hM, hD, hh, hmin, hsec,
      if_neg (show ¬((3:ℤ) ≤ 2) from by norm_num)]
    rw [show (365.25 * (((-5001 : ℤ) : ℝ) + 4716)) = -104096.25 from by push_cast; norm_num,
      truncR_of_neg (show (-104096.25 : ℝ) < 0 from by norm_num),
      show (30.6001 * (((3 : ℤ) : ℝ) + 1)) = 122.4004 from by push_cast; norm_num,
      truncR_of_nonneg (show (0:ℝ) ≤ 122.4004 from by norm_num),
      show Int.tdiv (-5001) 100 = -50 from by decide,
      show Int.tdiv (-50) 4 = -12 from by decide]
    norm_num
  have h2 : julianDayFloorSpec ⟨-219978374400, 0⟩ = -105458.5 := by
    simp only [julianDayFloorSpec, hY, hM, hD, hh, hmin, hsec,
      if_neg (show ¬((3:ℤ) ≤ 2) from by norm_num)]
    rw [show (365.25 * (((-5001 : ℤ) : ℝ) + 4716)) = -104096.25 from by push_cast; norm_num,
      show (30.6001 * (((3 : ℤ) : ℝ) + 1)) = 122.4004 from by push_cast; norm_num,
      show ((( -5001 : ℤ) : ℝ)) = -5001 from by push_cast; norm_num]
    norm_num
  rw [h1, h2]
  norm_num

/-- C6: the Julian Day anchor of the orchestrator genuinely depends on the
time-of-day of the input: 2000-03-20 00:00 UTC and 2000-03-20 23:00 UTC
share the calendar date and the timezone yet receive different Julian Days
(the code adds hour/24 + minute/1440 + second/86400 to the day's number). -/
theorem C6_anchor_depends_on_time_of_day :
    (GoTime.year ⟨953510400, 0⟩, GoTime.month ⟨953510400, 0⟩, GoTime.day ⟨953510400, 0⟩,
        GoTime.off ⟨953510400, 0⟩) =
      (GoTime.year ⟨953593200, 0⟩, GoTime.month ⟨953593200, 0⟩, GoTime.day ⟨953593200, 0⟩,
        GoTime.off ⟨953593200, 0⟩) ∧
    julianDay ⟨953510400, 0⟩ ≠ julianDay ⟨953593200, 0⟩ := by
  constructor
  · decide
  · have common : ∀ sec : ℤ, (⟨sec, 0⟩ : GoTime).utc.year = 2000 →
        (⟨sec, 0⟩ : GoTime).utc.month = 3 → (⟨sec, 0⟩ : GoTime).utc.day = 20 →
        (⟨sec, 0⟩ : GoTime).utc.minute = 0 → (⟨sec, 0⟩ : GoTime).utc.second = 0 →
        julianDay ⟨sec, 0⟩ = 2451623.5 + ((⟨sec, 0⟩ : GoTime).utc.hour : ℝ) / 24 := by
      intro sec hY hM hD hmin hsec
      simp only [julianDay, hY, hM, hD, hmin, hsec,
        if_neg (show ¬((3:ℤ) ≤ 2) from by norm_num)]
      rw [show (365.25 * (((2000 : ℤ) : ℝ) + 4716)) = 2453019 from by push_cast; norm_num,
        truncR_of_nonneg (show (0:ℝ) ≤ 2453019 from by norm_num),
        show (30.6001 * (((3 : ℤ) : ℝ) + 1)) = 122.4004 from by push_cast; norm_num,
        truncR_of_nonneg (show (0:ℝ) ≤ 122.4004 from by norm_num),
        show Int.tdiv 2000 100 = 20 from by decide,
        show Int.tdiv 20 4 = 5 from by decide]
      norm_num
      ring
    rw [common 953510400 (by decide) (by decide) (by decide) (by decide) (by decide),
      common 953593200 (by decide) (by decide) (by decide) (by decide) (by decide),
      show (⟨953510400, 0⟩ : GoTime).utc.hour = 0 from by decide,
      show (⟨953593200, 0⟩ : GoTime).utc.hour = 23 from by decide]
    norm_num

/-- C1, amended: the hour angle solved at the reference zenith is kept
positive for the sunrise computation and negated for the sunset
computation, for every latitude, longitude and Julian Day (the
specification sentence has the two signs swapped). -/
theorem C1_amended_sign_convention (jd lat lon : ℝ) :
    timeOfTransit jd lat lon sunriseZenith true =
      transitWithSignedAngle jd lon
        (hourAngleFromZenith lat (sunDeclination (julianDayToJulianCentury jd))
          sunriseZenith) ∧
    timeOfTransit jd lat lon sunriseZenith false =
      transitWithSignedAngle jd lon
        (-hourAngleFromZenith lat (sunDeclination (julianDayToJulianCentury jd))
          sunriseZenith) := by
  constructor <;> simp [timeOfTransit, transitWithSignedAngle]

/-- C7, amended: the sunrise and sunset instants returned by the
orchestrator always carry the same timezone as the input instant (the
same-calendar-day half of the claim fails, see the counterexample). -/
theorem C7_same_timezone (lat lon : ℝ) (t : GoTime) :
    (CalculateTimes lat lon t).1.off = t.off ∧ (CalculateTimes lat lon t).2.off = t.off :=
  ⟨rfl, rfl⟩

/-! ### Numeric toolkit: polynomial bounds on the trigonometric functions -/

theorem sin_le_taylor {x : ℝ} (h0 : 0 ≤ x) (h1 : x ≤ 1) :
    sin x ≤ x - x ^ 3 / 6 + x ^ 4 * (5 / 96) := by
  have hb := Real.sin_bound (x := x) (by rw [abs_of_nonneg h0]; exact h1)
  rw [abs_of_nonneg h0] at hb
  have h2 := (abs_le.mp hb).2
  linarith

theorem sin_ge_taylor {x : ℝ} (h0 : 0 ≤ x) (h1 : x ≤ 1) :
    x - x ^ 3 / 6 - x ^ 4 * (5 / 96) ≤ sin x := by
  have hb := Real.sin_bound (x := x) (by rw [abs_of_nonneg h0]; exact h1)
  rw [abs_of_nonneg h0] at hb
  have h2 := (abs_le.mp hb).1
  linarith

theorem sin_ge_cube {x : ℝ} (h0 : 0 ≤ x) (h1 : x ≤ 1) : x - x ^ 3 / 4 ≤ sin x := by
  rcases eq_or_lt_of_le h0 with h | h
  · rw [← h]
    norm_num
  · exact (Real.sin_gt_sub_cube h h1).le

theorem arcsin_ge_self {x : ℝ} (h0 : 0 ≤ x) (h1 : x ≤ 1) : x ≤ arcsin x := by
  have hs : sin (arcsin x) = x := Real.sin_arcsin (by linarith) h1
  have hnn : 0 ≤ arcsin x := Real.arcsin_nonneg.mpr h0
  nlinarith [Real.sin_le hnn, hs]

theorem mul_unit_bound {a s : ℝ} (ha : 0 ≤ a) (hs1 : -1 ≤ s) (hs2 : s ≤ 1) :
    -a ≤ a * s ∧ a * s ≤ a := by
  constructor <;> nlinarith

theorem unit_mul_unit {a b : ℝ} (ha1 : -1 ≤ a) (ha2 : a ≤ 1) (hb1 : -1 ≤ b) (hb2 : b ≤ 1) :
    -1 ≤ a * b ∧ a * b ≤ 1 := by
  constructor <;> nlinarith

/-! ### Interval bounds over Julian Centuries close to J2000.0 -/

theorem ecc_bounds {jc : ℝ} (h1 : -0.01 ≤ jc) (h2 : jc ≤ 0.01) :
    0.016 ≤ eccentricEarthOrbit jc ∧ eccentricEarthOrbit jc ≤ 0.0168 := by
  simp only [eccentricEarthOrbit]
  constructor <;> nlinarith [sq_nonneg jc]

theorem oc_bounds {jc : ℝ} (h1 : -0.01 ≤ jc) (h2 : jc ≤ 0.01) :
    23.43 ≤ obliquityCorrection jc ∧ obliquityCorrection jc ≤ 23.45 := by
  have hc1 := Real.neg_one_le_cos (π * (125.04 - 1934.136 * jc) / 180)
  have hc2 := Real.cos_le_one (π * (125.04 - 1934.136 * jc) / 180)
  simp only [obliquityCorrection, meanObliquityOfEcliptic]
  have hsq : jc ^ 2 ≤ 0.0001 := by nlinarith
  constructor <;> nlinarith [sq_nonneg jc, sq_nonneg (jc + 0.01), sq_nonneg (jc - 0.01)]

theorem ocRad_bounds {jc : ℝ} (h1 : -0.01 ≤ jc) (h2 : jc ≤ 0.01) :
    0.4089 ≤ π * obliquityCorrection jc / 180 ∧ π * obliquityCorrection jc / 180 ≤ 0.4093 := by
  obtain ⟨ho1, ho2⟩ := oc_bounds h1 h2
  have hp1 := Real.pi_gt_d6
  have hp2 := Real.pi_lt_d6
  have hml : (3.141592 : ℝ) * 23.43 ≤ π * obliquityCorrection jc :=
    mul_le_mul hp1.le ho1 (by norm_num) (by linarith)
  have hmu : π * obliquityCorrection jc ≤ 3.141593 * 23.45 :=
    mul_le_mul hp2.le ho2 (by linarith) (by norm_num)
  constructor <;> nlinarith

theorem sin_ocRad_bounds {jc : ℝ} (h1 : -0.01 ≤ jc) (h2 : jc ≤ 0.01) :
    0.3917 ≤ sin (π * obliquityCorrection jc / 180) ∧
    sin (π * obliquityCorrection jc / 180) ≤ 0.4093 := by
  obtain ⟨hr1, hr2⟩ := ocRad_bounds h1 h2
  have hx0 : (0:ℝ) ≤ π * obliquityCorrection jc / 180 := by linarith
  have hx3 : (π * obliquityCorrection jc / 180) ^ 3 ≤ 0.0686 := by
    have := pow_le_pow_left₀ hx0 hr2 3
    nlinarith
  constructor
  · have := sin_ge_cube (x := π * obliquityCorrection jc / 180) hx0 (by linarith)
    linarith
  · have := Real.sin_le (x := π * obliquityCorrection jc / 180) hx0
    linarith

theorem y_bounds {jc : ℝ} (h1 : -0.01 ≤ jc) (h2 : jc ≤ 0.01) :
    0 ≤ tan (π * obliquityCorrection jc / 360) * tan (π * obliquityCorrection jc / 360) ∧
    tan (π * obliquityCorrection jc / 360) * tan (π * obliquityCorrection jc / 360) ≤ 0.0438 := by
  obtain ⟨hr1, hr2⟩ := ocRad_bounds h1 h2
  have ht1 : (0.2044 : ℝ) ≤ π * obliquityCorrection jc / 360 := by linarith
  have ht2 : π * obliquityCorrection jc / 360 ≤ 0.2047 := by linarith
  have hcos : (0.979 : ℝ) ≤ cos (π * obliquityCorrection jc / 360) := by
    have := Real.one_sub_sq_div_two_le_cos (x := π * obliquityCorrection jc / 360)
    nlinarith
  have hsin1 : (0 : ℝ) ≤ sin (π * obliquityCorrection jc / 360) := by
    apply Real.sin_nonneg_of_nonneg_of_le_pi (by linarith)
    nlinarith [Real.pi_gt_d6]
  have hsin2 : sin (π * obliquityCorrection jc / 360) ≤ 0.2047 := by
    have := Real.sin_le (x := π * obliquityCorrection jc / 360) (by linarith)
    linarith
  have htan : tan (π * obliquityCorrection jc / 360) ≤ 0.2091 := by
    rw [Real.tan_eq_sin_div_cos, div_le_iff₀ (by linarith)]
    nlinarith
  have htan0 : 0 ≤ tan (π * obliquityCorrection jc / 360) := by
    rw [Real.tan_eq_sin_div_cos]
    exact div_nonneg hsin1 (by linarith)
  constructor
  · exact mul_nonneg htan0 htan0
  · nlinarith

set_option maxHeartbeats 1000000 in
theorem etime_comb_bounds {y e s1 s2 c1 s3 s4 : ℝ}
    (hy0 : 0 ≤ y) (hy1 : y ≤ 0.0438) (he0 : 0.016 ≤ e) (he1 : e ≤ 0.0168)
    (hs1a : -1 ≤ s1) (hs1b : s1 ≤ 1) (hs2a : -1 ≤ s2) (hs2b : s2 ≤ 1)
    (hc1a : -1 ≤ c1) (hc1b : c1 ≤ 1) (hs3a : -1 ≤ s3) (hs3b : s3 ≤ 1)
    (hs4a : -1 ≤ s4) (hs4b : s4 ≤ 1) :
    -0.0817 ≤ y * s1 - 2 * e * s2 + 4 * e * y * s2 * c1 - 0.5 * y * y * s3 -
      1.25 * e * e * s4 ∧
    y * s1 - 2 * e * s2 + 4 * e * y * s2 * c1 - 0.5 * y * y * s3 -
      1.25 * e * e * s4 ≤ 0.0817 := by
  have ht1 := mul_unit_bound hy0 hs1a hs1b
  have ht2 := mul_unit_bound (by linarith : (0:ℝ) ≤ 2 * e) hs2a hs2b
  have hp := unit_mul_unit hs2a hs2b hc1a hc1b
  have he0' : (0:ℝ) ≤ e := by linarith
  have hey : e * y ≤ 0.0168 * 0.0438 := mul_le_mul he1 hy1 hy0 (by norm_num)
  have hey0 : 0 ≤ e * y := mul_nonneg he0' hy0
  have hA : 0 ≤ 4 * e * y ∧ 4 * e * y ≤ 0.00295 := by
    constructor
    · nlinarith [hey0]
    · nlinarith [hey]
  have ht3 := mul_unit_bound hA.1 hp.1 hp.2
  have h34 : 4 * e * y * s2 * c1 = (4 * e * y) * (s2 * c1) := by ring
  have hyy' : y * y ≤ 0.0438 * 0.0438 := mul_le_mul hy1 hy1 hy0 (by norm_num)
  have hyy0 : 0 ≤ y * y := mul_nonneg hy0 hy0
  have hyy : 0 ≤ 0.5 * y * y ∧ 0.5 * y * y ≤ 0.00096 := by
    constructor
    · nlinarith [hyy0]
    · nlinarith [hyy']
  have ht4 := mul_unit_bound hyy.1 hs3a hs3b
  have hee' : e * e ≤ 0.0168 * 0.0168 := mul_le_mul he1 he1 he0' (by norm_num)
  have hee0 : 0 ≤ e * e := mul_nonneg he0' he0'
  have hee : 0 ≤ 1.25 * e * e ∧ 1.25 * e * e ≤ 0.000353 := by
    constructor
    · nlinarith [hee0]
    · nlinarith [hee']
  have ht5 := mul_unit_bound hee.1 hs4a hs4b
  have hr1 : 0.5 * y * y * s3 = (0.5 * y * y) * s3 := by ring
  have hr2 : 1.25 * e * e * s4 = (1.25 * e * e) * s4 := by ring
  rw [h34, hr1, hr2]
  constructor <;> linarith [ht1.1, ht1.2, ht2.1, ht2.2, ht3.1, ht3.2, ht4.1, ht4.2,
    ht5.1, ht5.2, hA.1, hA.2, hyy.1, hyy.2, hee.1, hee.2]

theorem div_pi_bound {E : ℝ} (h1 : -0.0817 ≤ E) (h2 : E ≤ 0.0817) :
    -19 ≤ 4 * 180 * E / π ∧ 4 * 180 * E / π ≤ 19 := by
  have hp1 := Real.pi_gt_d6
  constructor
  · rw [le_div_iff₀ Real.pi_pos]
    nlinarith
  · rw [div_le_iff₀ Real.pi_pos]
    nlinarith

theorem eq_bound {jc : ℝ} (h1 : -0.01 ≤ jc) (h2 : jc ≤ 0.01) :
    -19 ≤ equationOfTime jc ∧ equationOfTime jc ≤ 19 := by
  obtain ⟨hy0, hy1⟩ := y_bounds h1 h2
  obtain ⟨he0, he1⟩ := ecc_bounds h1 h2
  simp only [equationOfTime]
  have hET := etime_comb_bounds hy0 hy1 he0 he1
    (Real.neg_one_le_sin _) (Real.sin_le_one (2 * π * geomMeanLongSun jc / 180))
    (Real.neg_one_le_sin _) (Real.sin_le_one (π * geomMeanAnomalySun jc / 180))
    (Real.neg_one_le_cos _) (Real.cos_le_one (2 * π * geomMeanLongSun jc / 180))
    (Real.neg_one_le_sin _) (Real.sin_le_one (4 * π * geomMeanLongSun jc / 180))
    (Real.neg_one_le_sin _) (Real.sin_le_one (2 * π * geomMeanAnomalySun jc / 180))
  exact div_pi_bound hET.1 hET.2

set_option maxHeartbeats 1000000 in
theorem dec_bounds {jc : ℝ} (h1 : -0.01 ≤ jc) (h2 : jc ≤ 0.01) :
    -24.7 ≤ sunDeclination jc ∧ sunDeclination jc ≤ 24.7 ∧
    0.9 ≤ cos (π * sunDeclination jc / 180) := by
  obtain ⟨hso1, hso2⟩ := sin_ocRad_bounds h1 h2
  have hal1 := Real.neg_one_le_sin (π * sunApparentLong jc / 180)
  have hal2 := Real.sin_le_one (π * sunApparentLong jc / 180)
  have hp := mul_unit_bound (by linarith : (0:ℝ) ≤ sin (π * obliquityCorrection jc / 180))
    hal1 hal2
  set p := sin (π * obliquityCorrection jc / 180) * sin (π * sunApparentLong jc / 180) with hpdef
  have hp1 : -0.4093 ≤ p := by linarith [hp.1]
  have hp2 : p ≤ 0.4093 := by linarith [hp.2]
  have hs043 : (0.4093 : ℝ) ≤ sin 0.43 := by
    have := sin_ge_cube (x := 0.43) (by norm_num) (by norm_num)
    nlinarith
  have harc2 : arcsin p ≤ 0.43 := by
    have hm := Real.monotone_arcsin (le_trans hp2 hs043)
    rwa [Real.arcsin_sin (by nlinarith [Real.pi_gt_d6])
      (by nlinarith [Real.pi_gt_d6])] at hm
  have harc1 : -0.43 ≤ arcsin p := by
    have hm := Real.monotone_arcsin (show -sin 0.43 ≤ p by linarith)
    rw [← Real.sin_neg] at hm
    rwa [Real.arcsin_sin (by nlinarith [Real.pi_gt_d6])
      (by nlinarith [Real.pi_gt_d6])] at hm
  have hkey : π * sunDeclination jc / 180 = arcsin p := by
    simp only [sunDeclination, ← hpdef]
    field_simp
  refine ⟨?_, ?_, ?_⟩
  · simp only [sunDeclination, ← hpdef]
    rw [le_div_iff₀ Real.pi_pos]
    nlinarith [Real.pi_gt_d6, Real.pi_lt_d6]
  · simp only [sunDeclination, ← hpdef]
    rw [div_le_iff₀ Real.pi_pos]
    nlinarith [Real.pi_gt_d6, Real.pi_lt_d6]
  · rw [hkey]
    have := Real.one_sub_sq_div_two_le_cos (x := arcsin p)
    nlinarith [harc1, harc2]

theorem cos_zenRad_bounds :
    -0.014545 ≤ cos (π * sunriseZenith / 180) ∧ cos (π * sunriseZenith / 180) ≤ -0.01454 := by
  have hsplit : π * sunriseZenith / 180 = π * 0.8333 / 180 + π / 2 := by
    simp only [sunriseZenith]
    ring
  rw [hsplit, Real.cos_add_pi_div_two]
  have hw1 : (0.0145438 : ℝ) ≤ π * 0.8333 / 180 := by nlinarith [Real.pi_gt_d6]
  have hw2 : π * 0.8333 / 180 ≤ 0.0145440 := by nlinarith [Real.pi_lt_d6]
  have hs1 := sin_ge_cube (x := π * 0.8333 / 180) (by linarith) (by linarith)
  have hs2 := Real.sin_le (x := π * 0.8333 / 180) (by linarith)
  have hcube : (π * 0.8333 / 180) ^ 3 ≤ 0.0000031 := by
    have h0 : (0:ℝ) ≤ π * 0.8333 / 180 := by linarith
    have := pow_le_pow_left₀ h0 hw2 3
    nlinarith
  constructor
  · nlinarith
  · nlinarith

set_option maxHeartbeats 1000000 in
theorem H_lat0_bounds {jc : ℝ} (h1 : -0.01 ≤ jc) (h2 : jc ≤ 0.01) :
    90.8 ≤ hourAngleFromZenith 0 (sunDeclination jc) sunriseZenith ∧
    hourAngleFromZenith 0 (sunDeclination jc) sunriseZenith ≤ 91 := by
  obtain ⟨hd1, hd2, hdc⟩ := dec_bounds h1 h2
  obtain ⟨hz1, hz2⟩ := cos_zenRad_bounds
  have hdc2 : cos (π * sunDeclination jc / 180) ≤ 1 := Real.cos_le_one _
  simp only [hourAngleFromZenith]
  rw [show π * (0:ℝ) / 180 = 0 by ring, Real.sin_zero, Real.cos_zero, zero_mul, sub_zero,
    one_mul]
  set d := cos (π * sunDeclination jc / 180) with hddef
  set cz := cos (π * sunriseZenith / 180) with hczdef
  have hdpos : (0:ℝ) < d := by linarith
  have hh2 : cz / d ≤ -0.01454 := by
    rw [div_le_iff₀ hdpos]
    nlinarith
  have hh1 : -0.01617 ≤ cz / d := by
    rw [le_div_iff₀ hdpos]
    nlinarith
  rw [if_neg (by linarith : ¬ cz / d > 1), if_neg (by linarith : ¬ cz / d < -1)]
  have harcsin_le : arcsin (cz / d) ≤ -0.01454 := by
    have hneg : -(cz / d) ≤ 1 := by linarith
    have h0 : 0 ≤ -(cz / d) := by linarith
    have := arcsin_ge_self h0 hneg
    rw [Real.arcsin_neg] at this
    linarith
  have harcsin_ge : -0.0162 ≤ arcsin (cz / d) := by
    have hs : -(cz / d) ≤ sin 0.0162 := by
      have := sin_ge_cube (x := 0.0162) (by norm_num) (by norm_num)
      nlinarith
    have hm := Real.monotone_arcsin hs
    rw [Real.arcsin_sin (by nlinarith [Real.pi_gt_d6]) (by nlinarith [Real.pi_gt_d6]),
      Real.arcsin_neg] at hm
    linarith
  rw [Real.arccos_eq_pi_div_two_sub_arcsin]
  rw [show (180 : ℝ) * (π / 2 - arcsin (cz / d)) / π = 90 * (π / π) - 180 * arcsin (cz / d) / π
    from by ring, div_self Real.pi_pos.ne', mul_one]
  have hb1 : 0.8 ≤ 180 * (-(arcsin (cz / d))) / π := by
    rw [le_div_iff₀ Real.pi_pos]
    nlinarith [Real.pi_lt_d6]
  have hb2 : 180 * (-(arcsin (cz / d))) / π ≤ 1 := by
    rw [div_le_iff₀ Real.pi_pos]
    nlinarith [Real.pi_gt_d6]
  have heq : 180 * (-(arcsin (cz / d))) / π = -(180 * arcsin (cz / d) / π) := by ring
  constructor
  · linarith [hb1, heq]
  · linarith [hb2, heq]

/-! ### Transit values in concrete scenarios -/

set_option maxHeartbeats 1000000 in
theorem transit_rise_lat0_lon0_bounds {jd : ℝ} (h1 : -0.01 ≤ julianDayToJulianCentury jd)
    (h2 : julianDayToJulianCentury jd ≤ 0.01) :
    337 ≤ timeOfTransit jd 0 0 sunriseZenith true ∧
    timeOfTransit jd 0 0 sunriseZenith true ≤ 376 := by
  obtain ⟨hH1, hH2⟩ := H_lat0_bounds h1 h2
  obtain ⟨he1, he2⟩ := eq_bound h1 h2
  simp only [timeOfTransit, if_true]
  rw [if_neg (by push_neg; nlinarith)]
  constructor <;> nlinarith

set_option maxHeartbeats 1000000 in
theorem transit_spec_rise_lat0_lon0_bounds {jd : ℝ} (h1 : -0.01 ≤ julianDayToJulianCentury jd)
    (h2 : julianDayToJulianCentury jd ≤ 0.01) :
    1064 ≤ transitWithSignedAngle jd 0
      (-hourAngleFromZenith 0 (sunDeclination (julianDayToJulianCentury jd)) sunriseZenith) ∧
    transitWithSignedAngle jd 0
      (-hourAngleFromZenith 0 (sunDeclination (julianDayToJulianCentury jd)) sunriseZenith)
      ≤ 1103 := by
  obtain ⟨hH1, hH2⟩ := H_lat0_bounds h1 h2
  obtain ⟨he1, he2⟩ := eq_bound h1 h2
  simp only [transitWithSignedAngle]
  rw [if_neg (by push_neg; nlinarith)]
  constructor <;> nlinarith

set_option maxHeartbeats 1000000 in
theorem transit_rise_lat0_lon180_bounds {jd : ℝ} (h1 : -0.01 ≤ julianDayToJulianCentury jd)
    (h2 : julianDayToJulianCentury jd ≤ 0.01) :
    1057 ≤ timeOfTransit jd 0 180 sunriseZenith true ∧
    timeOfTransit jd 0 180 sunriseZenith true ≤ 1096 := by
  obtain ⟨hH1, hH2⟩ := H_lat0_bounds h1 h2
  obtain ⟨he1, he2⟩ := eq_bound h1 h2
  simp only [timeOfTransit, if_true]
  rw [if_pos (by nlinarith)]
  constructor <;> nlinarith

/-- C1 counterexample: at Julian Day 2451545 (2000-01-01 noon), latitude 0,
longitude 0, the code's sunrise (which keeps the hour angle positive, about
356 minutes) differs from the specification's step as worded (negate the
angle for sunrise, about 1084 minutes). -/
theorem C1_counterexample :
    timeOfTransit 2451545 0 0 sunriseZenith true ≠
      transitWithSignedAngle 2451545 0
        (-hourAngleFromZenith 0 (sunDeclination (julianDayToJulianCentury 2451545))
          sunriseZenith) := by
  have hjc1 : (-0.01 : ℝ) ≤ julianDayToJulianCentury 2451545 := by
    simp only [julianDayToJulianCentury]
    norm_num
  have hjc2 : julianDayToJulianCentury 2451545 ≤ 0.01 := by
    simp only [julianDayToJulianCentury]
    norm_num
  obtain ⟨hc1, hc2⟩ := transit_rise_lat0_lon0_bounds hjc1 hjc2
  obtain ⟨hs1, hs2⟩ := transit_spec_rise_lat0_lon0_bounds hjc1 hjc2
  intro h
  rw [h] at hc2
  linarith

/-- Decomposition of minutesToTime: for nonnegative m, the result is the
date's civil day (in the date's location) at an integer second-of-day within
a minute of 60 * m. -/
theorem minutesToTime_decompose (date : GoTime) (m : ℝ) (hm : 0 ≤ m) :
    ∃ tod : ℤ, minutesToTime date m =
      ⟨daysFromCivil date.year date.month date.day * 86400 + tod, date.off⟩ ∧
      60 * m - 3600 < (tod : ℝ) ∧ (tod : ℝ) < 60 * m + 3660 := by
  have hm60 : (0:ℝ) ≤ m / 60 := by linarith
  have hfloor0 : (0:ℤ) ≤ ⌊m⌋ := Int.le_floor.mpr (by exact_mod_cast hm)
  have hfr0 : (0:ℝ) ≤ (m - (⌊m⌋ : ℝ)) * 60 := by
    have := Int.floor_le m
    linarith
  have hfr1 : (m - (⌊m⌋ : ℝ)) * 60 < 60 := by
    have := Int.lt_floor_add_one m
    linarith
  refine ⟨truncR (m / 60) * 3600 + Int.tmod (truncR m) 60 * 60 +
    truncR ((m - (truncR m : ℝ)) * 60), ?_, ?_, ?_⟩
  · simp only [minutesToTime, goDate, GoTime.inZone]
    congr 1
    omega
  · rw [truncR_of_nonneg hm, truncR_of_nonneg hm60, truncR_of_nonneg hfr0]
    have hh : m / 60 - 1 < (⌊m / 60⌋ : ℝ) := Int.sub_one_lt_floor _
    have hmins : (0:ℤ) ≤ Int.tmod ⌊m⌋ 60 := Int.tmod_nonneg _ hfloor0
    have hsecs : (0:ℤ) ≤ ⌊(m - (⌊m⌋ : ℝ)) * 60⌋ := Int.le_floor.mpr (by exact_mod_cast hfr0)
    push_cast
    have hminsR : (0:ℝ) ≤ (Int.tmod ⌊m⌋ 60 : ℝ) := by exact_mod_cast hmins
    have hsecsR : (0:ℝ) ≤ (⌊(m - (⌊m⌋ : ℝ)) * 60⌋ : ℝ) := by exact_mod_cast hsecs
    nlinarith
  · rw [truncR_of_nonneg hm, truncR_of_nonneg hm60, truncR_of_nonneg hfr0]
    have hh : (⌊m / 60⌋ : ℝ) ≤ m / 60 := Int.floor_le _
    have hmins : Int.tmod ⌊m⌋ 60 < 60 := Int.tmod_lt_of_pos _ (by norm_num)
    have hsecs : (⌊(m - (⌊m⌋ : ℝ)) * 60⌋ : ℝ) ≤ (m - (⌊m⌋ : ℝ)) * 60 := Int.floor_le _
    have hfloorle : (⌊m⌋ : ℝ) ≤ m := Int.floor_le m
    push_cast
    have hminsR : ((Int.tmod ⌊m⌋ 60 : ℤ) : ℝ) ≤ 59 := by exact_mod_cast Int.lt_add_one_iff.mp hmins
    nlinarith

set_option maxHeartbeats 1000000 in
/-- C7 counterexample: at latitude 0, longitude 180, timezone UTC+13
(46800 seconds), local date 2000-01-01 00:00, the sunrise instant returned
by the orchestrator falls on 2000-01-02 local, not on the input's calendar
day. -/
theorem C7_counterexample :
    ¬ (((CalculateTimes 0 180 ⟨946638000, 46800⟩).1.year,
        (CalculateTimes 0 180 ⟨946638000, 46800⟩).1.month,
        (CalculateTimes 0 180 ⟨946638000, 46800⟩).1.day) =
        ((⟨946638000, 46800⟩ : GoTime).year, (⟨946638000, 46800⟩ : GoTime).month,
          (⟨946638000, 46800⟩ : GoTime).day) ∧
      (CalculateTimes 0 180 ⟨946638000, 46800⟩).1.off = (⟨946638000, 46800⟩ : GoTime).off) := by
  have hjd : julianDay ⟨946638000, 46800⟩ = 2451543.5 + 11 / 24 := by
    have hY : (⟨946638000, 46800⟩ : GoTime).utc.year = 1999 := by decide
    have hM : (⟨946638000, 46800⟩ : GoTime).utc.month = 12 := by decide
    have hD : (⟨946638000, 46800⟩ : GoTime).utc.day = 31 := by decide
    have hh : (⟨946638000, 46800⟩ : GoTime).utc.hour = 11 := by decide
    have hmin : (⟨946638000, 46800⟩ : GoTime).utc.minute = 0 := by decide
    have hsec : (⟨946638000, 46800⟩ : GoTime).utc.second = 0 := by decide
    simp only [julianDay, hY, hM, hD, hh, hmin, hsec,
      if_neg (show ¬((12:ℤ) ≤ 2) from by norm_num)]
    rw [show (365.25 * (((1999 : ℤ) : ℝ) + 4716)) = 2452653.75 from by push_cast; norm_num,
      truncR_of_nonneg (show (0:ℝ) ≤ 2452653.75 from by norm_num),
      show (30.6001 * (((12 : ℤ) : ℝ) + 1)) = 397.8013 from by push_cast; norm_num,
      truncR_of_nonneg (show (0:ℝ) ≤ 397.8013 from by norm_num),
      show Int.tdiv 1999 100 = 19 from by decide,
      show Int.tdiv 19 4 = 4 from by decide]
    norm_num
  have hjc1 : (-0.01:ℝ) ≤ julianDayToJulianCentury (julianDay ⟨946638000, 46800⟩) := by
    rw [hjd]
    simp only [julianDayToJulianCentury]
    norm_num
  have hjc2 : julianDayToJulianCentury (julianDay ⟨946638000, 46800⟩) ≤ 0.01 := by
    rw [hjd]
    simp only [julianDayToJulianCentury]
    norm_num
  obtain ⟨hm1a, hm1b⟩ := transit_rise_lat0_lon180_bounds hjc1 hjc2
  have hjc1' : (-0.01:ℝ) ≤ julianDayToJulianCentury (julianDay ⟨946638000, 46800⟩ +
      timeOfTransit (julianDay ⟨946638000, 46800⟩) 0 180 sunriseZenith true / 1440) := by
    rw [julianDayToJulianCentury] at *
    rw [hjd] at *
    nlinarith
  have hjc2' : julianDayToJulianCentury (julianDay ⟨946638000, 46800⟩ +
      timeOfTransit (julianDay ⟨946638000, 46800⟩) 0 180 sunriseZenith true / 1440) ≤ 0.01 := by
    rw [julianDayToJulianCentury] at *
    rw [hjd] at *
    nlinarith
  obtain ⟨hm2a, hm2b⟩ := transit_rise_lat0_lon180_bounds hjc1' hjc2'
  have hcalc : (CalculateTimes 0 180 ⟨946638000, 46800⟩).1 =
      minutesToTime ⟨946638000, 46800⟩
        (timeOfTransit (julianDay ⟨946638000, 46800⟩ +
          timeOfTransit (julianDay ⟨946638000, 46800⟩) 0 180 sunriseZenith true / 1440)
          0 180 sunriseZenith true) := rfl
  obtain ⟨tod, htod_eq, htod1, htod2⟩ := minutesToTime_decompose ⟨946638000, 46800⟩
    (timeOfTransit (julianDay ⟨946638000, 46800⟩ +
      timeOfTransit (julianDay ⟨946638000, 46800⟩) 0 180 sunriseZenith true / 1440)
      0 180 sunriseZenith true) (by linarith)
  rw [hcalc, htod_eq]
  have htodZ1 : 59821 ≤ tod := by
    have h : (59820 : ℤ) < tod := by exact_mod_cast (show (59820 : ℝ) < (tod : ℝ) by nlinarith)
    omega
  have htodZ2 : tod ≤ 69420 := by
    have h : tod < (69421 : ℤ) := by exact_mod_cast (show (tod : ℝ) < (69421 : ℝ) by nlinarith)
    omega
  have hymd : (⟨946638000, 46800⟩ : GoTime).year = 2000 ∧
      (⟨946638000, 46800⟩ : GoTime).month = 1 ∧ (⟨946638000, 46800⟩ : GoTime).day = 1 := by
    refine ⟨by decide, by decide, by decide⟩
  have hdfc : daysFromCivil (⟨946638000, 46800⟩ : GoTime).year
      (⟨946638000, 46800⟩ : GoTime).month (⟨946638000, 46800⟩ : GoTime).day = 10957 := by
    decide
  rw [hdfc]
  have hdiv : (10957 * 86400 + tod + 46800) / 86400 = 10958 := by omega
  intro hcontra
  obtain ⟨htuple, _⟩ := hcontra
  have hday : (⟨10957 * 86400 + tod, 46800⟩ : GoTime).day =
      (⟨946638000, 46800⟩ : GoTime).day := congrArg (fun p => p.2.2) htuple
  rw [hymd.2.2] at hday
  simp only [GoTime.day, GoTime.ymd, GoTime.localDays, GoTime.localAbs] at hday
  rw [show (10957 * 86400 + tod + 46800) = 10957 * 86400 + tod + 46800 from rfl] at hday
  rw [hdiv] at hday
  rw [show civilFromDays 10958 = (2000, 1, 2) from by decide] at hday
  norm_num at hday

/-! ### Bounds around the June 2000 solstice (Julian Centuries in
[0.004695, 0.004731]) -/

set_option maxHeartbeats 1000000 in
theorem l0_solstice_bounds {jc : ℝ} (h1 : 0.004695 ≤ jc) (h2 : jc ≤ 0.004731) :
    89.49 ≤ geomMeanLongSun jc ∧ geomMeanLongSun jc ≤ 90.79 := by
  simp only [geomMeanLongSun, goMod]
  have hraw1 : 449.49 ≤ 280.46646 + jc * (36000.76983 + 0.0003032 * jc) := by nlinarith
  have hraw2 : 280.46646 + jc * (36000.76983 + 0.0003032 * jc) ≤ 450.79 := by nlinarith
  have htr : truncR ((280.46646 + jc * (36000.76983 + 0.0003032 * jc)) / 360) = 1 := by
    rw [truncR_of_nonneg (by linarith)]
    rw [Int.floor_eq_iff]
    constructor <;> push_cast <;> linarith
  rw [htr]
  constructor <;> push_cast <;> linarith

set_option maxHeartbeats 1000000 in
theorem al_solstice_bounds {jc : ℝ} (h1 : 0.004695 ≤ jc) (h2 : jc ≤ 0.004731) :
    87.54 ≤ sunApparentLong jc ∧ sunApparentLong jc ≤ 92.73 := by
  obtain ⟨hl1, hl2⟩ := l0_solstice_bounds h1 h2
  have hc : -1.935 ≤ sunEqOfCenter jc ∧ sunEqOfCenter jc ≤ 1.935 := by
    simp only [sunEqOfCenter]
    have hb1 := mul_unit_bound (show (0:ℝ) ≤ 1.914602 - jc * (0.004817 + 0.000014 * jc)
      from by nlinarith)
      (Real.neg_one_le_sin (π * geomMeanAnomalySun jc / 180))
      (Real.sin_le_one (π * geomMeanAnomalySun jc / 180))
    have hb2 := mul_unit_bound (show (0:ℝ) ≤ 0.019993 - 0.000101 * jc from by nlinarith)
      (Real.neg_one_le_sin (2 * (π * geomMeanAnomalySun jc / 180)))
      (Real.sin_le_one (2 * (π * geomMeanAnomalySun jc / 180)))
    have hb3 := mul_unit_bound (show (0:ℝ) ≤ 0.000289 from by norm_num)
      (Real.neg_one_le_sin (3 * (π * geomMeanAnomalySun jc / 180)))
      (Real.sin_le_one (3 * (π * geomMeanAnomalySun jc / 180)))
    have hr1 : sin (π * geomMeanAnomalySun jc / 180) *
        (1.914602 - jc * (0.004817 + 0.000014 * jc)) =
        (1.914602 - jc * (0.004817 + 0.000014 * jc)) *
        sin (π * geomMeanAnomalySun jc / 180) := by ring
    have hr2 : sin (2 * (π * geomMeanAnomalySun jc / 180)) * (0.019993 - 0.000101 * jc) =
        (0.019993 - 0.000101 * jc) * sin (2 * (π * geomMeanAnomalySun jc / 180)) := by ring
    have hr3 : sin (3 * (π * geomMeanAnomalySun jc / 180)) * 0.000289 =
        0.000289 * sin (3 * (π * geomMeanAnomalySun jc / 180)) := by ring
    rw [hr1, hr2, hr3]
    constructor <;> nlinarith [hb1.1, hb1.2, hb2.1, hb2.2, hb3.1, hb3.2]
  simp only [sunApparentLong, sunTrueLong]
  have hsin := Real.neg_one_le_sin (π * (125.04 - 1934.136 * jc) / 180)
  have hsin2 := Real.sin_le_one (π * (125.04 - 1934.136 * jc) / 180)
  constructor <;> nlinarith [hc.1, hc.2]

set_option maxHeartbeats 1000000 in
theorem sin_al_solstice {jc : ℝ} (h1 : 0.004695 ≤ jc) (h2 : jc ≤ 0.004731) :
    0.9988 ≤ sin (π * sunApparentLong jc / 180) := by
  obtain ⟨ha1, ha2⟩ := al_solstice_bounds h1 h2
  have hp1 := Real.pi_gt_d6
  have hp2 := Real.pi_lt_d6
  have hal1 : (1.5278 : ℝ) ≤ π * sunApparentLong jc / 180 := by
    have := mul_le_mul hp1.le ha1 (by norm_num) (by linarith)
    nlinarith
  have hal2 : π * sunApparentLong jc / 180 ≤ 1.6185 := by
    have := mul_le_mul hp2.le ha2 (by linarith) (by norm_num)
    nlinarith
  have hkey : sin (π * sunApparentLong jc / 180) =
      cos (π / 2 - π * sunApparentLong jc / 180) := (Real.cos_pi_div_two_sub _).symm
  rw [hkey]
  have hd1 : -(0.0477 : ℝ) ≤ π / 2 - π * sunApparentLong jc / 180 := by nlinarith
  have hd2 : π / 2 - π * sunApparentLong jc / 180 ≤ 0.0477 := by nlinarith
  have := Real.one_sub_sq_div_two_le_cos (x := π / 2 - π * sunApparentLong jc / 180)
  nlinarith

set_option maxHeartbeats 1000000 in
theorem dec_solstice_lower {jc : ℝ} (h1 : 0.004695 ≤ jc) (h2 : jc ≤ 0.004731) :
    22.91 ≤ sunDeclination jc := by
  have hJ1 : (-0.01 : ℝ) ≤ jc := by linarith
  have hJ2 : jc ≤ 0.01 := by linarith
  obtain ⟨hso1, hso2⟩ := sin_ocRad_bounds hJ1 hJ2
  have hsal := sin_al_solstice h1 h2
  have hsal2 := Real.sin_le_one (π * sunApparentLong jc / 180)
  have hp : 0.3912 ≤ sin (π * obliquityCorrection jc / 180) *
      sin (π * sunApparentLong jc / 180) := by nlinarith
  have hp2 : sin (π * obliquityCorrection jc / 180) * sin (π * sunApparentLong jc / 180) ≤ 1 := by
    nlinarith
  have hsin04 : sin (0.40 : ℝ) ≤ 0.3907 := by
    have := sin_le_taylor (x := (0.40 : ℝ)) (by norm_num) (by norm_num)
    nlinarith
  have harc : (0.40 : ℝ) ≤ arcsin (sin (π * obliquityCorrection jc / 180) *
      sin (π * sunApparentLong jc / 180)) := by
    have hm := Real.monotone_arcsin (show sin (0.40:ℝ) ≤ sin (π * obliquityCorrection jc / 180) *
      sin (π * sunApparentLong jc / 180) by linarith)
    rwa [Real.arcsin_sin (by nlinarith [Real.pi_gt_d6]) (by nlinarith [Real.pi_gt_d6])] at hm
  simp only [sunDeclination]
  rw [le_div_iff₀ Real.pi_pos]
  nlinarith [Real.pi_lt_d6]

set_option maxHeartbeats 1000000 in
theorem hourAngle_clamp_polar {lat dec : ℝ} (h1 : 66.6 ≤ lat) (h2 : lat < 90)
    (h3 : 22.91 ≤ dec) (h4 : dec ≤ 24.7) :
    hourAngleFromZenith lat dec sunriseZenith = 180 := by
  have hp1 := Real.pi_gt_d6
  have hp2 := Real.pi_lt_d6
  have hlatRad1 : (1.16238 : ℝ) ≤ π * lat / 180 := by nlinarith
  have hlatRad2 : π * lat / 180 < π / 2 := by nlinarith
  have hdecRad1 : (0.39985 : ℝ) ≤ π * dec / 180 := by nlinarith
  have hdecRad2 : π * dec / 180 ≤ 0.43111 := by nlinarith
  have hcoslat : 0 < cos (π * lat / 180) :=
    Real.cos_pos_of_mem_Ioo ⟨by nlinarith, hlatRad2⟩
  have hcosdec : 0 < cos (π * dec / 180) :=
    Real.cos_pos_of_mem_Ioo ⟨by nlinarith, by nlinarith⟩
  obtain ⟨hz1, hz2⟩ := cos_zenRad_bounds
  have hsum1 : (1.56223 : ℝ) ≤ π * lat / 180 + π * dec / 180 := by linarith
  have hsum2 : π * lat / 180 + π * dec / 180 ≤ π := by nlinarith
  have hcossum : cos (π * lat / 180 + π * dec / 180) ≤ 0.00857 := by
    have hmono := Real.cos_le_cos_of_nonneg_of_le_pi (x := (1.56223 : ℝ))
      (by norm_num) hsum2 hsum1
    have hc : cos (1.56223 : ℝ) = sin (π / 2 - 1.56223) := by
      rw [← Real.cos_pi_div_two_sub]
      congr 1
      ring
    have hs : sin (π / 2 - (1.56223:ℝ)) ≤ π / 2 - 1.56223 :=
      Real.sin_le (by nlinarith)
    nlinarith
  have hcadd := Real.cos_add (π * lat / 180) (π * dec / 180)
  have hnum : cos (π * sunriseZenith / 180) - sin (π * lat / 180) * sin (π * dec / 180) <
      -(cos (π * lat / 180) * cos (π * dec / 180)) := by nlinarith
  have hden : 0 < cos (π * lat / 180) * cos (π * dec / 180) := mul_pos hcoslat hcosdec
  have hh : (cos (π * sunriseZenith / 180) - sin (π * lat / 180) * sin (π * dec / 180)) /
      (cos (π * lat / 180) * cos (π * dec / 180)) < -1 := by
    rw [div_lt_iff₀ hden]
    nlinarith
  simp only [hourAngleFromZenith]
  rw [if_neg (by push_neg; nlinarith), if_pos hh]

/-- Transit minutes when the hour angle clamps to 180 and the longitude is
eastern enough that the midnight correction folds sunrise onto sunset. -/
theorem timeOfTransit_polar_east {jd lat lon : ℝ}
    (hH : hourAngleFromZenith lat
      (sunDeclination (julianDayToJulianCentury jd)) sunriseZenith = 180)
    (he1 : -19 ≤ equationOfTime (julianDayToJulianCentury jd))
    (he2 : equationOfTime (julianDayToJulianCentury jd) ≤ 19)
    (h3 : 30 ≤ lon) (h4 : lon ≤ 180) :
    timeOfTransit jd lat lon sunriseZenith true =
      1440 - 4 * lon - equationOfTime (julianDayToJulianCentury jd) ∧
    timeOfTransit jd lat lon sunriseZenith false =
      1440 - 4 * lon - equationOfTime (julianDayToJulianCentury jd) := by
  constructor
  · simp only [timeOfTransit, if_true]
    rw [hH, if_pos (by nlinarith)]
    ring
  · simp only [timeOfTransit, Bool.false_eq_true, if_false]
    rw [hH, if_neg (by push_neg; nlinarith)]
    ring

/-- Transit minutes when the hour angle clamps to 180 at a western
longitude: sunrise and sunset stay a full day apart. -/
theorem timeOfTransit_polar_west {jd lat lon : ℝ}
    (hH : hourAngleFromZenith lat
      (sunDeclination (julianDayToJulianCentury jd)) sunriseZenith = 180)
    (he1 : -19 ≤ equationOfTime (julianDayToJulianCentury jd))
    (he2 : equationOfTime (julianDayToJulianCentury jd) ≤ 19)
    (h3 : -180 ≤ lon) (h4 : lon ≤ -5) :
    timeOfTransit jd lat lon sunriseZenith true =
      -4 * lon - equationOfTime (julianDayToJulianCentury jd) ∧
    timeOfTransit jd lat lon sunriseZenith false =
      1440 - 4 * lon - equationOfTime (julianDayToJulianCentury jd) := by
  constructor
  · simp only [timeOfTransit, if_true]
    rw [hH, if_neg (by push_neg; nlinarith)]
    ring
  · simp only [timeOfTransit, Bool.false_eq_true, if_false]
    rw [hH, if_neg (by push_neg; nlinarith)]
    ring

theorem julianDay_solstice : julianDay ⟨961545600, 0⟩ = 2451716.5 := by
  have hY : (⟨961545600, 0⟩ : GoTime).utc.year = 2000 := by decide
  have hM : (⟨961545600, 0⟩ : GoTime).utc.month = 6 := by decide
  have hD : (⟨961545600, 0⟩ : GoTime).utc.day = 21 := by decide
  have hh : (⟨961545600, 0⟩ : GoTime).utc.hour = 0 := by decide
  have hmin : (⟨961545600, 0⟩ : GoTime).utc.minute = 0 := by decide
  have hsec : (⟨961545600, 0⟩ : GoTime).utc.second = 0 := by decide
  simp only [julianDay, hY, hM, hD, hh, hmin, hsec,
    if_neg (show ¬((6:ℤ) ≤ 2) from by norm_num)]
  rw [show (365.25 * (((2000 : ℤ) : ℝ) + 4716)) = 2453019 from by push_cast; norm_num,
    truncR_of_nonneg (show (0:ℝ) ≤ 2453019 from by norm_num),
    show (30.6001 * (((6 : ℤ) : ℝ) + 1)) = 214.2007 from by push_cast; norm_num,
    truncR_of_nonneg (show (0:ℝ) ≤ 214.2007 from by norm_num),
    show Int.tdiv 2000 100 = 20 from by decide,
    show Int.tdiv 20 4 = 5 from by decide]
  norm_num

theorem jc_solstice_bounds : 0.004695 ≤ julianDayToJulianCentury (julianDay ⟨961545600, 0⟩) ∧
    julianDayToJulianCentury (julianDay ⟨961545600, 0⟩) ≤ 0.0046955 := by
  rw [julianDay_solstice]
  simp only [julianDayToJulianCentury]
  constructor <;> norm_num

set_option maxHeartbeats 1000000 in
/-- C8, amended: on the 2000 summer solstice the hour-angle solver clamps
to exactly 180 degrees for every latitude in [66.6, 90), and for eastern
longitudes (where the midnight correction folds the two events together)
the orchestrator's sunrise and sunset collapse to the same value. -/
theorem C8_amended_polar_clamp (lat lon : ℝ) (h1 : 66.6 ≤ lat) (h2 : lat < 90)
    (h3 : 30 ≤ lon) (h4 : lon ≤ 180) :
    hourAngleFromZenith lat (sunDeclination (julianDayToJulianCentury
      (julianDay ⟨961545600, 0⟩))) sunriseZenith = 180 ∧
    (CalculateTimes lat lon ⟨961545600, 0⟩).1 = (CalculateTimes lat lon ⟨961545600, 0⟩).2 := by
  obtain ⟨hj1, hj2⟩ := jc_solstice_bounds
  have hJ1 : (-0.01:ℝ) ≤ julianDayToJulianCentury (julianDay ⟨961545600, 0⟩) := by linarith
  have hJ2 : julianDayToJulianCentury (julianDay ⟨961545600, 0⟩) ≤ 0.01 := by linarith
  have hdlo := dec_solstice_lower hj1 (by linarith)
  have hdhi := (dec_bounds hJ1 hJ2).2.1
  have hH := hourAngle_clamp_polar h1 h2 hdlo hdhi
  obtain ⟨he1, he2⟩ := eq_bound hJ1 hJ2
  obtain ⟨hp1r, hp1s⟩ := timeOfTransit_polar_east hH he1 he2 h3 h4
  have hshift : ∀ v : ℝ, julianDayToJulianCentury (julianDay ⟨961545600, 0⟩ + v) =
      julianDayToJulianCentury (julianDay ⟨961545600, 0⟩) + v / 36525 := by
    intro v
    simp only [julianDayToJulianCentury]
    ring
  have hM1 : (701:ℝ) ≤ 1440 - 4 * lon -
      equationOfTime (julianDayToJulianCentury (julianDay ⟨961545600, 0⟩)) := by linarith
  have hM2 : 1440 - 4 * lon -
      equationOfTime (julianDayToJulianCentury (julianDay ⟨961545600, 0⟩)) ≤ 1339 := by linarith
  have hjc2a : 0.004695 ≤ julianDayToJulianCentury (julianDay ⟨961545600, 0⟩ +
      (1440 - 4 * lon -
        equationOfTime (julianDayToJulianCentury (julianDay ⟨961545600, 0⟩))) / 1440) := by
    rw [hshift]
    nlinarith
  have hjc2b : julianDayToJulianCentury (julianDay ⟨961545600, 0⟩ +
      (1440 - 4 * lon -
        equationOfTime (julianDayToJulianCentury (julianDay ⟨961545600, 0⟩))) / 1440)
      ≤ 0.004731 := by
    rw [hshift]
    nlinarith
  have hdlo2 := dec_solstice_lower hjc2a hjc2b
  have hdhi2 := (dec_bounds (by linarith) (by linarith : julianDayToJulianCentury
    (julianDay ⟨961545600, 0⟩ + (1440 - 4 * lon - equationOfTime (julianDayToJulianCentury
      (julianDay ⟨961545600, 0⟩))) / 1440) ≤ 0.01)).2.1
  have hH2 := hourAngle_clamp_polar h1 h2 hdlo2 hdhi2
  obtain ⟨he1', he2'⟩ := eq_bound (show (-0.01:ℝ) ≤ _ by linarith [hjc2a])
    (show julianDayToJulianCentury (julianDay ⟨961545600, 0⟩ + (1440 - 4 * lon -
      equationOfTime (julianDayToJulianCentury (julianDay ⟨961545600, 0⟩))) / 1440) ≤ 0.01
      by linarith [hjc2b])
  obtain ⟨hp2r, hp2s⟩ := timeOfTransit_polar_east hH2 he1' he2' h3 h4
  refine ⟨hH, ?_⟩
  have hc1 : (CalculateTimes lat lon ⟨961545600, 0⟩).1 =
      minutesToTime ⟨961545600, 0⟩
        (timeOfTransit (julianDay ⟨961545600, 0⟩ +
          timeOfTransit (julianDay ⟨961545600, 0⟩) lat lon sunriseZenith true / 1440)
          lat lon sunriseZenith true) := rfl
  have hc2 : (CalculateTimes lat lon ⟨961545600, 0⟩).2 =
      minutesToTime ⟨961545600, 0⟩
        (timeOfTransit (julianDay ⟨961545600, 0⟩ +
          timeOfTransit (julianDay ⟨961545600, 0⟩) lat lon sunriseZenith false / 1440)
          lat lon sunriseZenith false) := rfl
  rw [hc1, hc2, hp1r, hp1s, hp2r, hp2s]

/-- C8 witness: the amended theorem applies at latitude 70, longitude 90. -/
theorem C8_witness :
    ((66.6:ℝ) ≤ 70 ∧ (70:ℝ) < 90 ∧ (30:ℝ) ≤ 90 ∧ (90:ℝ) ≤ 180) ∧
    (hourAngleFromZenith 70 (sunDeclination (julianDayToJulianCentury
      (julianDay ⟨961545600, 0⟩))) sunriseZenith = 180 ∧
    (CalculateTimes 70 90 ⟨961545600, 0⟩).1 = (CalculateTimes 70 90 ⟨961545600, 0⟩).2) :=
  ⟨⟨by norm_num, by norm_num, by norm_num, by norm_num⟩,
    C8_amended_polar_clamp 70 90 (by norm_num) (by norm_num) (by norm_num) (by norm_num)⟩

set_option maxHeartbeats 1000000 in
/-- C8 counterexample: at latitude 70 (above 66.6) on the 2000 summer
solstice with longitude -100, the hour angle clamps to 180 yet the
orchestrator's sunrise and sunset do not collapse: they come out about 1440
minutes apart. -/
theorem C8_counterexample :
    (CalculateTimes 70 (-100) ⟨961545600, 0⟩).1 ≠
      (CalculateTimes 70 (-100) ⟨961545600, 0⟩).2 := by
  obtain ⟨hj1, hj2⟩ := jc_solstice_bounds
  have hJ1 : (-0.01:ℝ) ≤ julianDayToJulianCentury (julianDay ⟨961545600, 0⟩) := by linarith
  have hJ2 : julianDayToJulianCentury (julianDay ⟨961545600, 0⟩) ≤ 0.01 := by linarith
  have hdlo := dec_solstice_lower hj1 (by linarith)
  have hdhi := (dec_bounds hJ1 hJ2).2.1
  have hH := hourAngle_clamp_polar (show (66.6:ℝ) ≤ 70 by norm_num) (show (70:ℝ) < 90 by norm_num) hdlo hdhi
  obtain ⟨he1, he2⟩ := eq_bound hJ1 hJ2
  obtain ⟨hp1r, hp1s⟩ := timeOfTransit_polar_west hH he1 he2
    (by norm_num : (-180:ℝ) ≤ -100) (by norm_num : (-100:ℝ) ≤ -5)
  have hshift : ∀ v : ℝ, julianDayToJulianCentury (julianDay ⟨961545600, 0⟩ + v) =
      julianDayToJulianCentury (julianDay ⟨961545600, 0⟩) + v / 36525 := by
    intro v
    simp only [julianDayToJulianCentury]
    ring
  -- second-pass Julian Century for the sunrise branch
  have hjr2a : 0.004695 ≤ julianDayToJulianCentury (julianDay ⟨961545600, 0⟩ +
      (-4 * (-100) - equationOfTime (julianDayToJulianCentury
        (julianDay ⟨961545600, 0⟩))) / 1440) := by
    rw [hshift]
    nlinarith
  have hjr2b : julianDayToJulianCentury (julianDay ⟨961545600, 0⟩ +
      (-4 * (-100) - equationOfTime (julianDayToJulianCentury
        (julianDay ⟨961545600, 0⟩))) / 1440) ≤ 0.004731 := by
    rw [hshift]
    nlinarith
  -- second-pass Julian Century for the sunset branch
  have hjs2a : 0.004695 ≤ julianDayToJulianCentury (julianDay ⟨961545600, 0⟩ +
      (1440 - 4 * (-100) - equationOfTime (julianDayToJulianCentury
        (julianDay ⟨961545600, 0⟩))) / 1440) := by
    rw [hshift]
    nlinarith
  have hjs2b : julianDayToJulianCentury (julianDay ⟨961545600, 0⟩ +
      (1440 - 4 * (-100) - equationOfTime (julianDayToJulianCentury
        (julianDay ⟨961545600, 0⟩))) / 1440) ≤ 0.004731 := by
    rw [hshift]
    nlinarith
  have hjr2J1 : (-0.01:ℝ) ≤ julianDayToJulianCentury (julianDay ⟨961545600, 0⟩ +
      (-4 * (-100) - equationOfTime (julianDayToJulianCentury
        (julianDay ⟨961545600, 0⟩))) / 1440) := by linarith
  have hjr2J2 : julianDayToJulianCentury (julianDay ⟨961545600, 0⟩ +
      (-4 * (-100) - equationOfTime (julianDayToJulianCentury
        (julianDay ⟨961545600, 0⟩))) / 1440) ≤ 0.01 := by linarith
  have hjs2J1 : (-0.01:ℝ) ≤ julianDayToJulianCentury (julianDay ⟨961545600, 0⟩ +
      (1440 - 4 * (-100) - equationOfTime (julianDayToJulianCentury
        (julianDay ⟨961545600, 0⟩))) / 1440) := by linarith
  have hjs2J2 : julianDayToJulianCentury (julianDay ⟨961545600, 0⟩ +
      (1440 - 4 * (-100) - equationOfTime (julianDayToJulianCentury
        (julianDay ⟨961545600, 0⟩))) / 1440) ≤ 0.01 := by linarith
  have hHr2 := hourAngle_clamp_polar (show (66.6:ℝ) ≤ 70 by norm_num) (show (70:ℝ) < 90 by norm_num)
    (dec_solstice_lower hjr2a hjr2b)
    ((dec_bounds hjr2J1 hjr2J2).2.1)
  have hHs2 := hourAngle_clamp_polar (show (66.6:ℝ) ≤ 70 by norm_num) (show (70:ℝ) < 90 by norm_num)
    (dec_solstice_lower hjs2a hjs2b)
    ((dec_bounds hjs2J1 hjs2J2).2.1)
  obtain ⟨her1, her2⟩ := eq_bound hjr2J1 hjr2J2
  obtain ⟨hes1, hes2⟩ := eq_bound hjs2J1 hjs2J2
  obtain ⟨hp2r, _⟩ := timeOfTransit_polar_west hHr2 her1 her2
    (by norm_num : (-180:ℝ) ≤ -100) (by norm_num : (-100:ℝ) ≤ -5)
  obtain ⟨_, hp2s⟩ := timeOfTransit_polar_west hHs2 hes1 hes2
    (by norm_num : (-180:ℝ) ≤ -100) (by norm_num : (-100:ℝ) ≤ -5)
  have hc1 : (CalculateTimes 70 (-100) ⟨961545600, 0⟩).1 =
      minutesToTime ⟨961545600, 0⟩
        (timeOfTransit (julianDay ⟨961545600, 0⟩ +
          timeOfTransit (julianDay ⟨961545600, 0⟩) 70 (-100) sunriseZenith true / 1440)
          70 (-100) sunriseZenith true) := rfl
  have hc2 : (CalculateTimes 70 (-100) ⟨961545600, 0⟩).2 =
      minutesToTime ⟨961545600, 0⟩
        (timeOfTransit (julianDay ⟨961545600, 0⟩ +
          timeOfTransit (julianDay ⟨961545600, 0⟩) 70 (-100) sunriseZenith false / 1440)
          70 (-100) sunriseZenith false) := rfl
  rw [hc1, hc2, hp1r, hp1s, hp2r, hp2s]
  obtain ⟨todr, hr_eq, hr1, hr2⟩ := minutesToTime_decompose ⟨961545600, 0⟩
    (-4 * (-100) - equationOfTime (julianDayToJulianCentury (julianDay ⟨961545600, 0⟩ +
      (-4 * (-100) - equationOfTime (julianDayToJulianCentury
        (julianDay ⟨961545600, 0⟩))) / 1440))) (by linarith)
  obtain ⟨tods, hs_eq, hs1, hs2⟩ := minutesToTime_decompose ⟨961545600, 0⟩
    (1440 - 4 * (-100) - equationOfTime (julianDayToJulianCentury (julianDay ⟨961545600, 0⟩ +
      (1440 - 4 * (-100) - equationOfTime (julianDayToJulianCentury
        (julianDay ⟨961545600, 0⟩))) / 1440))) (by linarith)
  rw [hr_eq, hs_eq]
  intro hcontra
  have hsec : daysFromCivil (⟨961545600, 0⟩ : GoTime).year (⟨961545600, 0⟩ : GoTime).month
        (⟨961545600, 0⟩ : GoTime).day * 86400 + todr =
      daysFromCivil (⟨961545600, 0⟩ : GoTime).year (⟨961545600, 0⟩ : GoTime).month
        (⟨961545600, 0⟩ : GoTime).day * 86400 + tods :=
    congrArg GoTime.sec hcontra
  have htodr : (todr : ℝ) < 60 * 419 + 3660 := by nlinarith
  have htods : (60 : ℝ) * 1821 - 3600 < (tods : ℝ) := by nlinarith
  have hZr : todr < 28800 := by exact_mod_cast htodr
  have hZs : (105660 : ℤ) < tods := by exact_mod_cast htods
  omega
